import Mathlib

/-!
# Verification of the menyoki capture/encode pipeline spec

Shallow embedding of the core data model and operations of the menyoki
repository (GIF encoding via gifski, still-image saving, recording,
device-input polling, file-format handling), with theorems settling the
specification claims against the code.
-/

namespace Menyoki

/-! ## Data model (from `src/image/geometry.rs`, `src/image/mod.rs`) -/

/-- Window/image geometry: position and size. -/
structure Geometry where
  x : Int
  y : Int
  width : Nat
  height : Nat
deriving Repr, DecidableEq

/-- A captured or decoded image: its pixel vector (as returned by
`Image::get_img_vec`), alpha flag and geometry. -/
structure Image where
  imgVec : List Nat
  alpha : Bool
  geometry : Geometry
deriving Repr, DecidableEq

/-- `Image::get_img_vec` returns the RGBA pixel vector of the image. -/
def Image.get_img_vec (img : Image) : List Nat :=
  img.imgVec

/-! ## GIF settings (from `src/encode/settings.rs` / CLI defaults in
`src/args/mod.rs` and `src/settings.rs`) -/

/-- GIF encoder settings: `quality ∈ [1,100]`, `repeat ∈ {-1, 0, N>0}`,
`fast` flag. -/
structure GifSettings where
  quality : Nat
  «repeat» : Int
  fast : Bool
deriving Repr, DecidableEq

/-! ## gifski encoder construction (from `src/gif/ski.rs`, `GifskiEncoder::new`) -/

/-- The settings record passed to `gifski::new` in `GifskiEncoder::new`:
width/height from the geometry, quality and fast forwarded, and
`once := settings.«repeat» == 0`. -/
structure GifskiSettings where
  width : Option Nat
  height : Option Nat
  quality : Nat
  once : Bool
  fast : Bool
deriving Repr, DecidableEq

/-- `GifskiEncoder::new` builds the `gifski::Settings` value from the frame
geometry and the `GifSettings` (src/gif/ski.rs lines 34-40). -/
def GifskiEncoder.newSettings (geometry : Geometry) (settings : GifSettings) :
    GifskiSettings :=
  { width := some geometry.width
    height := some geometry.height
    quality := settings.quality
    once := settings.«repeat» == 0
    fast := settings.fast }

/-- Looping behaviour that a produced GIF can carry. -/
inductive LoopBehavior where
  | noLoop
  | infinite
  | finite (n : Nat)
deriving Repr, DecidableEq

/-- Looping behaviour of the gifski output as a function of the `once` flag
(the only looping control the gifski settings expose): with `once` set no
loop extension is written (the GIF plays once); otherwise an infinite-loop
marker is written. -/
def gifskiLoopBehavior (once : Bool) : LoopBehavior :=
  if once then .noLoop else .infinite

/-- The looping behaviour the encoder constructed by `GifskiEncoder::new`
produces for given settings. -/
def producedLoopBehavior (geometry : Geometry) (settings : GifSettings) :
    LoopBehavior :=
  gifskiLoopBehavior (GifskiEncoder.newSettings geometry settings).once

/-! ## The Collector stage of `GifskiEncoder::save` (src/gif/ski.rs lines 56-89)

The collector thread iterates `images.iter().enumerate()`; for every
`(i, image)` it first re-checks the cancel keys when an input state was
provided (panicking on cancel), then calls
`collector.add_frame_rgba(i, image.get_img_vec(), i as f64 / fps as f64)`.
The per-iteration poll of the input state is modelled as a function from the
iteration index to the polled answer of `check_cancel_keys`. -/

/-- One frame as submitted to the gifski collector:
`(index, pixel data, presentation timestamp)`. -/
structure CollectedFrame where
  index : Nat
  pixels : List Nat
  pts : ℚ
deriving Repr, DecidableEq

/-- The frame submitted for index `i`: pixel data from `get_img_vec` and
presentation timestamp `i / fps`. -/
def submittedFrame (fps : Nat) (i : Nat) (image : Image) : CollectedFrame :=
  { index := i, pixels := image.get_img_vec, pts := (i : ℚ) / (fps : ℚ) }

/-- The full list of frames the Collector submits for `images` at `fps`,
in iteration order (the uncancelled run of the collector loop). -/
def collectFrames (images : List Image) (fps : Nat) : List CollectedFrame :=
  images.enum.map fun p => submittedFrame fps p.1 p.2

/-- The collector loop of `GifskiEncoder::save`, from iteration index `i`:
when an input state is provided, the cancel keys are re-checked before each
submission and a positive answer panics (`panic!("Failed to write the
frames")`), aborting the encode; otherwise the frame is submitted and the
loop continues. A panic is modelled as `Except.error`. -/
def collectLoopFrom (fps : Nat) (inputState : Option (Nat → Bool)) :
    Nat → List Image → Except String (List CollectedFrame)
  | _, [] => .ok []
  | i, image :: rest =>
    if (inputState.map fun state => state i).getD false then
      .error "Failed to write the frames"
    else
      match collectLoopFrom fps inputState (i + 1) rest with
      | .ok frames => .ok (submittedFrame fps i image :: frames)
      | .error e => .error e

/-- The whole collector loop of `GifskiEncoder::save` over `images`. -/
def collectLoop (images : List Image) (fps : Nat)
    (inputState : Option (Nat → Bool)) : Except String (List CollectedFrame) :=
  collectLoopFrom fps inputState 0 images

/-! ## `App::save_gif` (src/app.rs lines 241-254)

`save_gif` destructures `(images, fps)`, evaluates
`images.first().expect("No frames found to save")` — panicking on an empty
list before any encoder is constructed — and then builds the encoder from
the first frame's geometry and runs `save`. -/

/-- Result of a successful `App::save_gif`: the gifski settings the encoder
was constructed with, and the frames the collector submitted. -/
structure SaveGifResult where
  encoderSettings : GifskiSettings
  frames : List CollectedFrame
deriving Repr, DecidableEq

/-- `App::save_gif`: fails with the `expect` message on an empty image list
before the encoder exists; otherwise constructs the encoder from the first
frame's geometry and the GIF settings and runs the collector loop. -/
def App.save_gif (images : List Image) (fps : Nat) (settings : GifSettings)
    (inputState : Option (Nat → Bool)) : Except String SaveGifResult :=
  match images.head? with
  | none => .error "No frames found to save"
  | some first =>
    (collectLoop images fps inputState).map fun frames =>
      { encoderSettings := GifskiEncoder.newSettings first.geometry settings
        frames := frames }

/-! ## Device state (src/util/device.rs) -/

/-- Keycodes relevant to the cancel check, plus an `other` constructor for
the remaining keys `device_query` can report. -/
inductive Keycode where
  | Escape
  | LControl
  | D
  | other (code : Nat)
deriving Repr, DecidableEq

/-- `DeviceState::check_cancel_pressed` over the polled key list:
`keys.contains(Escape) || (keys.contains(LControl) && keys.contains(D))`. -/
def DeviceState.check_cancel_pressed (keys : List Keycode) : Bool :=
  keys.contains .Escape || (keys.contains .LControl && keys.contains .D)

/-- `DeviceState::check_mouse_clicked` over the polled `button_pressed`
vector: `mouse[1] || mouse[3]`, with Rust's panicking index and
short-circuiting `||`. `none` models a panic (index out of bounds); the
right operand is only read when `mouse[1]` is `false`. -/
def DeviceState.check_mouse_clicked (mouse : List Bool) : Option Bool :=
  match mouse.get? 1 with
  | none => none
  | some b1 => if b1 then some true else mouse.get? 3

/-! ## `App::save_image` (src/app.rs lines 211-232) -/

/-- Color types passed to the still-image encoders in `App::start`. -/
inductive ColorType where
  | Rgb8
  | Rgba8
  | Rgba16
deriving Repr, DecidableEq

/-- The `write_image` call a successful `App::save_image` hands to the
still-image encoder. -/
structure WriteImageCall where
  data : List Nat
  width : Nat
  height : Nat
  colorType : ColorType
deriving Repr, DecidableEq

/-- `App::save_image`: `image.expect("Failed to get the window image")`
panics when the capture yielded no image, before any encoding is attempted;
otherwise the image is encoded via `encoder.write_image(...)`. -/
def App.save_image (image : Option Image) (colorType : ColorType) :
    Except String WriteImageCall :=
  match image with
  | none => .error "Failed to get the window image"
  | some img =>
    .ok { data := img.get_img_vec
          width := img.geometry.width
          height := img.geometry.height
          colorType := colorType }

/-! ## `App::record`, async branch (src/app.rs lines 183-202)

With `command` present, the recorder runs asynchronously; after the
foreground command, `record.get()` is matched: `Some(frames)` unwraps the
thread result with `expect` (a panicked recorder thread propagates),
`None` yields `Vec::new()`. -/

/-- The value `App::record` returns from the async recorder's join:
`joined = none` models `record.get()` returning `None` (joined before any
result), `some r` the recorder thread's own result. -/
def App.recordAsyncJoin (joined : Option (Except String (List Image))) :
    Except String (List Image) :=
  match joined with
  | none => .ok []
  | some r => r

/-! ## GIF edit flow: delay retiming (modelled) -/

/-- Modelled from the spec: the decode→edit flow (`Decoder::update_frames`,
not present under `src/`) recomputes each decoded frame delay as
`original_delay * 100 / speed`, and `speed == 0` is rejected as a
ConfigurationError before decoding proceeds, so the division is never
reached with `speed = 0`. -/
def updateFrameDelays (speed : Nat) (delays : List Nat) :
    Except String (List Nat) :=
  if speed = 0 then .error "ConfigurationError"
  else .ok (delays.map fun d => d * 100 / speed)

/-! ## File formats (src/util/file.rs lines 50-91) -/

/-- The output file formats. -/
inductive FileFormat where
  | Any
  | Gif
  | Png
  | Jpg
  | Bmp
  | Ico
  | Tiff
  | Pnm
  | Ff
deriving Repr, DecidableEq

/-- The `Display` implementation of `FileFormat`: the debug name of the
variant, except `Any` which prints `"*"`. -/
def FileFormat.toDisplayString : FileFormat → String
  | .Any => "*"
  | .Gif => "Gif"
  | .Png => "Png"
  | .Jpg => "Jpg"
  | .Bmp => "Bmp"
  | .Ico => "Ico"
  | .Tiff => "Tiff"
  | .Pnm => "Pnm"
  | .Ff => "Ff"

/-- The `FromStr` implementation of `FileFormat`. -/
def FileFormat.from_str (s : String) : Except String FileFormat :=
  match s with
  | "gif" => .ok .Gif
  | "png" => .ok .Png
  | "jpg" => .ok .Jpg
  | "bmp" => .ok .Bmp
  | "ico" => .ok .Ico
  | "tiff" => .ok .Tiff
  | "pnm" => .ok .Pnm
  | "ff" => .ok .Ff
  | _ => .error "Unrecognized file format"

/-- ASCII model of Rust's `str::to_lowercase` (the display strings of
`FileFormat` are plain ASCII, where it lowercases letter by letter). -/
def toLowercase (s : String) : String :=
  ⟨s.data.map Char.toLower⟩

/-- A sample geometry for instantiating theorems. -/
def demoGeometry : Geometry :=
  { x := 0, y := 0, width := 4, height := 4 }

/-- A sample image for instantiating theorems. -/
def demoImage : Image :=
  { imgVec := [0, 0, 0, 255], alpha := false, geometry := demoGeometry }

/-- A sample two-frame sequence for instantiating theorems. -/
def demoImages : List Image :=
  [demoImage, { demoImage with imgVec := [255, 255, 255, 255] }]

/-- Sample GIF settings (the CLI defaults: quality 75, infinite repeat). -/
def demoSettings : GifSettings :=
  { quality := 75, «repeat» := -1, fast := false }

/-! ## Theorems settling the claims -/

/-- C1 (counterexample): with `repeat = 2 > 0` the gifski encoder is
constructed with `once = false`, the same flag value as `repeat = -1`, so the
produced output carries the infinite-loop marker — not exactly 2
repetitions as the claim states. -/
theorem repeat_two_not_finite :
    producedLoopBehavior demoGeometry { quality := 75, «repeat» := 2, fast := false }
      = LoopBehavior.infinite
    ∧ producedLoopBehavior demoGeometry { quality := 75, «repeat» := 2, fast := false }
      ≠ LoopBehavior.finite 2 := by
  decide

/-- C1 (amended): the gifski encoder construction maps the `repeat` field to
the single boolean `once := repeat == 0`; therefore `repeat = 0` yields a
non-looping GIF, and every other repeat value — `-1` as well as every
`N > 0` — yields the infinite-loop marker. -/
theorem gifski_loop_from_repeat (geometry : Geometry) (settings : GifSettings) :
    producedLoopBehavior geometry settings
      = if settings.«repeat» = 0 then LoopBehavior.noLoop else LoopBehavior.infinite := by
  simp [producedLoopBehavior, gifskiLoopBehavior, GifskiEncoder.newSettings]

/-- C5: `DeviceState::check_cancel_pressed` returns `true` iff, in the polled
key set, Escape is pressed or LControl and D are pressed together. -/
theorem check_cancel_pressed_iff (keys : List Keycode) :
    DeviceState.check_cancel_pressed keys = true
      ↔ (Keycode.Escape ∈ keys ∨ (Keycode.LControl ∈ keys ∧ Keycode.D ∈ keys)) := by
  simp [DeviceState.check_cancel_pressed]

/-- C6: a capture that yields no image is fatal for the still-image save
path: `App::save_image` fails with the `expect` message on `None`, for every
color type, and never reaches a `write_image` call. -/
theorem save_image_none_fatal (colorType : ColorType) :
    App.save_image none colorType = .error "Failed to get the window image"
    ∧ ∀ call : WriteImageCall, App.save_image none colorType ≠ .ok call := by
  refine ⟨rfl, fun call h => ?_⟩
  simp [App.save_image] at h

/-- C7: in command-driven record mode, the frames returned are exactly what
the async recorder captured up to join time; in particular a join that
yields no result produces an empty vector rather than a failure. -/
theorem record_async_join_frames :
    App.recordAsyncJoin none = .ok []
    ∧ ∀ frames : List Image,
        App.recordAsyncJoin (some (.ok frames)) = .ok frames :=
  ⟨rfl, fun _ => rfl⟩

/-- C8: the edit flow recomputes every frame delay as
`original_delay * 100 / speed` (so `speed = 200` halves every delay), and
`speed = 0` is rejected as a ConfigurationError before any division is
reached. -/
theorem update_frame_delays_speed (speed : Nat) (delays : List Nat) :
    (speed = 0 → updateFrameDelays speed delays = .error "ConfigurationError")
    ∧ (speed ≠ 0 →
        updateFrameDelays speed delays = .ok (delays.map fun d => d * 100 / speed))
    ∧ updateFrameDelays 200 delays = .ok (delays.map fun d => d / 2) := by
  refine ⟨fun h => by simp [updateFrameDelays, h], fun h => by simp [updateFrameDelays, h], ?_⟩
  have h200 : ∀ d : Nat, d * 100 / 200 = d / 2 := by intro d; omega
  simp only [updateFrameDelays, if_neg (by omega : (200 : Nat) ≠ 0)]
  exact congrArg Except.ok (List.map_congr_left fun d _ => h200 d)

/-- C8 (witness): at `speed = 0` the hypotheses are discharged concretely. -/
theorem update_frame_delays_speed_witness :
    updateFrameDelays 0 [10, 20] = .error "ConfigurationError" :=
  (update_frame_delays_speed 0 [10, 20]).1 rfl

/-- The uncancelled collector loop from index `i` submits the enumerated
frames from `i` on. -/
theorem collectLoopFrom_none (fps : Nat) :
    ∀ (images : List Image) (i : Nat),
      collectLoopFrom fps none i images
        = .ok ((images.enumFrom i).map fun p => submittedFrame fps p.1 p.2) := by
  intro images
  induction images with
  | nil => intro i; rfl
  | cons img rest ih =>
    intro i
    simp [collectLoopFrom, ih (i + 1), List.enumFrom]

/-- C2: the Collector stage of `GifskiEncoder::save` (its loop with no input
state) submits exactly the `n` frames: the submitted list is `ok`, its
indices are `0, 1, ..., n-1` in strictly increasing order, and the frame at
position `i` carries the pixel data of image `i` and the presentation
timestamp `i / fps`, a function of the index and the fps only. -/
theorem collector_submits_in_order (images : List Image) (fps : Nat)
    (_hf : 0 < fps) :
    collectLoop images fps none = .ok (collectFrames images fps)
    ∧ (collectFrames images fps).map CollectedFrame.index
        = List.range images.length
    ∧ ∀ i : Nat,
        (collectFrames images fps).get? i
          = (images.get? i).map fun img =>
              { index := i, pixels := img.get_img_vec,
                pts := (i : ℚ) / (fps : ℚ) } := by
  refine ⟨?_, ?_, ?_⟩
  · rw [collectLoop, collectLoopFrom_none, collectFrames, List.enum]
  · rw [collectFrames, List.map_map]
    have hcomp :
        (CollectedFrame.index ∘ fun p : Nat × Image => submittedFrame fps p.1 p.2)
          = Prod.fst := by
      funext p
      rfl
    rw [hcomp, List.enum_map_fst]
  · intro i
    rw [collectFrames, List.get?_map, List.get?_enum, Option.map_map]
    rfl

/-- C2 (witness): the collector output at fps 10 on the sample frames,
evaluated at position 1. -/
theorem collector_submits_in_order_witness :
    0 < 10
    ∧ (collectFrames demoImages 10).get? 1
        = (demoImages.get? 1).map fun img =>
            { index := 1, pixels := img.get_img_vec,
              pts := ((1 : Nat) : ℚ) / ((10 : Nat) : ℚ) } :=
  ⟨by decide, (collector_submits_in_order demoImages 10 (by decide)).2.2 1⟩

/-- If any polled iteration index up to the end of the list reports cancel,
the collector loop from `i` aborts with the panic message. -/
theorem collectLoopFrom_cancel (fps : Nat) (state : Nat → Bool) :
    ∀ (images : List Image) (i k : Nat), k < images.length →
      state (i + k) = true →
      collectLoopFrom fps (some state) i images
        = .error "Failed to write the frames" := by
  intro images
  induction images with
  | nil =>
    intro i k hk _
    simp at hk
  | cons img rest ih =>
    intro i k hk hsk
    by_cases hs : state i = true
    · simp [collectLoopFrom, hs]
    · have hk0 : k ≠ 0 := by
        intro h0
        rw [h0, Nat.add_zero] at hsk
        exact hs hsk
      obtain ⟨k', rfl⟩ := Nat.exists_eq_succ_of_ne_zero hk0
      have hrec : collectLoopFrom fps (some state) (i + 1) rest
          = .error "Failed to write the frames" := by
        refine ih (i + 1) k' ?_ ?_
        · simpa using Nat.lt_of_succ_lt_succ hk
        · rw [show i + 1 + k' = i + (k' + 1) by omega]
          exact hsk
      simp [collectLoopFrom, hs, hrec]

/-- C3: in `GifskiEncoder::save` with an input state provided, the cancel
keys are re-checked before every frame submission; if at any checked
iteration `k` within the frame list they are pressed, the whole encode
aborts fatally with the panic message `"Failed to write the frames"` and
never yields the frames submitted so far as a clean partial result. -/
theorem gif_encode_cancel_fatal (images : List Image) (fps : Nat)
    (state : Nat → Bool) (k : Nat) (hk : k < images.length)
    (hsk : state k = true) :
    collectLoop images fps (some state) = .error "Failed to write the frames"
    ∧ ∀ frames : List CollectedFrame,
        collectLoop images fps (some state) ≠ .ok frames := by
  have herr := collectLoopFrom_cancel fps state images 0 k hk (by simpa using hsk)
  refine ⟨herr, fun frames hok => ?_⟩
  rw [collectLoop] at hok
  rw [herr] at hok
  exact Except.noConfusion hok

/-- C3 (witness): cancelling at the second polled iteration of the sample
two-frame encode aborts it. -/
theorem gif_encode_cancel_fatal_witness :
    1 < demoImages.length
    ∧ collectLoop demoImages 10 (some fun i => decide (i = 1))
        = .error "Failed to write the frames" :=
  ⟨by decide,
    (gif_encode_cancel_fatal demoImages 10 (fun i => decide (i = 1)) 1
      (by decide) (by decide)).1⟩

/-- C4: `App::save_gif` never begins encoding an empty frame sequence — on
an empty image list it fails with the `expect` message before the encoder is
constructed — and on a non-empty list the encoder is constructed from the
first frame's geometry before the collector loop runs. -/
theorem save_gif_nonempty_invariant (images : List Image) (fps : Nat)
    (settings : GifSettings) (inputState : Option (Nat → Bool)) :
    (images = [] →
      App.save_gif images fps settings inputState
        = .error "No frames found to save")
    ∧ ∀ first rest, images = first :: rest →
        App.save_gif images fps settings inputState
          = (collectLoop images fps inputState).map fun frames =>
              { encoderSettings :=
                  GifskiEncoder.newSettings first.geometry settings
                frames := frames } := by
  constructor
  · rintro rfl
    rfl
  · rintro first rest rfl
    rfl

/-- C4 (witness): the empty list fails with the `expect` message. -/
theorem save_gif_nonempty_invariant_witness :
    App.save_gif [] 10 demoSettings none = .error "No frames found to save" :=
  (save_gif_nonempty_invariant [] 10 demoSettings none).1 rfl

/-- C9 (counterexample): with only two reported buttons — fewer than four —
and the button at index 1 pressed, `check_mouse_clicked` does not panic:
Rust's short-circuiting `||` returns `true` without reading index 3. -/
theorem check_mouse_clicked_two_buttons_no_panic :
    ([false, true] : List Bool).length < 4
    ∧ DeviceState.check_mouse_clicked [false, true] = some true := by
  decide

/-- C9 (amended): with at least four reported buttons,
`check_mouse_clicked` is total and returns true iff the button at index 1 or
the button at index 3 is pressed; with fewer than four buttons it panics
exactly when it is not the case that index 1 is in bounds with its button
pressed (short-circuit evaluation skips the read of index 3). -/
theorem check_mouse_clicked_amended (mouse : List Bool) :
    (4 ≤ mouse.length →
      DeviceState.check_mouse_clicked mouse
        = some (mouse.getD 1 false || mouse.getD 3 false))
    ∧ (mouse.length < 4 →
      (DeviceState.check_mouse_clicked mouse = none
        ↔ ¬ (mouse.getD 1 false = true ∧ 1 < mouse.length))) := by
  rcases mouse with _ | ⟨a, _ | ⟨b, _ | ⟨c, _ | ⟨d, rest⟩⟩⟩⟩
  · exact ⟨fun h => by simp at h, fun _ => by simp [DeviceState.check_mouse_clicked]⟩
  · exact ⟨fun h => by simp at h, fun _ => by simp [DeviceState.check_mouse_clicked]⟩
  · refine ⟨fun h => by simp at h, fun _ => ?_⟩
    cases b <;> simp [DeviceState.check_mouse_clicked]
  · refine ⟨fun h => by simp at h, fun _ => ?_⟩
    cases b <;> simp [DeviceState.check_mouse_clicked]
  · refine ⟨fun _ => ?_, fun h => by simp at h; omega⟩
    cases b <;> simp [DeviceState.check_mouse_clicked]

/-- C9 (witness): the amended statement at a concrete four-button state with
only the index-3 button pressed. -/
theorem check_mouse_clicked_amended_witness :
    4 ≤ ([false, false, false, true] : List Bool).length
    ∧ DeviceState.check_mouse_clicked [false, false, false, true]
        = some (([false, false, false, true] : List Bool).getD 1 false
            || ([false, false, false, true] : List Bool).getD 3 false) :=
  ⟨by decide, (check_mouse_clicked_amended [false, false, false, true]).1 (by decide)⟩

/-- C10: the `Display`/`FromStr` round-trip of `FileFormat`: every format
other than `Any` parses back from its lowercased display string, while `Any`
prints `"*"`, which does not parse. -/
theorem fileformat_display_roundtrip :
    (∀ f : FileFormat, f ≠ FileFormat.Any →
      FileFormat.from_str (toLowercase f.toDisplayString) = .ok f)
    ∧ FileFormat.Any.toDisplayString = "*"
    ∧ FileFormat.from_str (toLowercase FileFormat.Any.toDisplayString)
        = .error "Unrecognized file format" := by
  refine ⟨fun f hf => ?_, rfl, rfl⟩
  cases f
  case Any => exact absurd rfl hf
  all_goals rfl

/-- C10 (witness): `Gif` prints `"Gif"`, lowercases to `"gif"` and parses
back to `Gif`. -/
theorem fileformat_display_roundtrip_witness :
    FileFormat.Gif ≠ FileFormat.Any
    ∧ FileFormat.from_str (toLowercase FileFormat.Gif.toDisplayString)
        = .ok FileFormat.Gif :=
  ⟨by decide, fileformat_display_roundtrip.1 FileFormat.Gif (by decide)⟩

end Menyoki
